import Mathlib

/-!
Verification of the `cetos` vessel fuel/energy consumption package
(RISE-Maritime/ceto) against its natural-language specification.

Shallow embedding conventions:
* Python floats are embedded as `ℚ` (exact arithmetic; the spec's invariants
  are stated "up to floating-point epsilon", which in the exact embedding
  become exact equalities).
* `__post_init__` validation (raising `ValueError`) is embedded as functions
  returning `Except String Unit`: `.error` models a raised exception.
* The consumption engine (`cetos.imo`) is not part of the inspected sources;
  every definition derived from it is marked `Modelled from the spec:` in its
  doc comment and follows the spec text (sections 4.2-4.5 and 6).
-/

namespace Cetos

/-- Vessel types, from `cetos/enums.py` (`VesselType`). -/
inductive VesselType where
  | bulk_carrier
  | chemical_tanker
  | container
  | general_cargo
  | liquified_gas_tanker
  | oil_tanker
  | other_liquids_tanker
  | ferry_pax
  | cruise
  | ferry_ropax
  | refrigerated_cargo
  | roro
  | vehicle
  | yacht
  | misc_fishing
  | service_tug
  | offshore
  | service_other
  | misc_other
deriving DecidableEq, Repr

/-- Fuel types, from `cetos/enums.py` (`FuelType`). -/
inductive FuelType where
  | HFO
  | MDO
  | MeOH
  | LNG
deriving DecidableEq, Repr

/-- Engine types, from `cetos/enums.py` (`EngineType`). -/
inductive EngineType where
  | SSD
  | MSD
  | HSD
  | LNG_Otto_MS
  | LBSI
  | gas_turbine
  | steam_turbine
deriving DecidableEq, Repr

/-- Engine age categories, from `cetos/enums.py` (`EngineAge`). -/
inductive EngineAge where
  | before_1984
  | between_1984_2000
  | after_2000
deriving DecidableEq, Repr

/-- `knots_to_ms` from `cetos/utils.py`: speed in knots to m/s. -/
def knots_to_ms (speed : ℚ) : ℚ :=
  speed * 1852 / 3600

/-- `ms_to_knots` from `cetos/utils.py`: speed in m/s to knots. -/
def ms_to_knots (speed : ℚ) : ℚ :=
  speed * 3600 / 1852

/-- A voyage leg, from `cetos/models.py` (`VoyageLeg`): distance (nm),
speed (kn), draft (m). -/
structure VoyageLeg where
  distance : ℚ
  speed : ℚ
  draft : ℚ
deriving DecidableEq, Repr

/-- `VoyageLeg.__post_init__` from `cetos/models.py`: raises `ValueError`
when `distance < 0`, `speed <= 0` or `draft <= 0` (in that order). -/
def VoyageLeg.validate (leg : VoyageLeg) : Except String Unit :=
  if leg.distance < 0 then
    .error "distance must be >= 0"
  else if leg.speed ≤ 0 then
    .error "speed must be > 0"
  else if leg.draft ≤ 0 then
    .error "draft must be > 0"
  else
    .ok ()

/-- Vessel characteristics, from `cetos/models.py` (`VesselData`).
`number_of_propulsion_engines` is `Literal[1, 2, 3, 4]` in the source;
it is embedded as `ℕ` (the literal constraint is a type-level fact the
runtime never checks). -/
structure VesselData where
  length : ℚ
  beam : ℚ
  design_speed : ℚ
  design_draft : ℚ
  double_ended : Bool
  number_of_propulsion_engines : ℕ
  propulsion_engine_power : ℚ
  propulsion_engine_type : EngineType
  propulsion_engine_age : EngineAge
  propulsion_engine_fuel_type : FuelType
  type : VesselType
  size : Option ℚ := none
deriving DecidableEq, Repr

/-- `VesselData._validate_range` from `cetos/models.py`: error unless
`min_val <= value <= max_val`. -/
def validateRange (name : String) (value lo hi : ℚ) : Except String Unit :=
  if lo ≤ value ∧ value ≤ hi then
    .ok ()
  else
    .error (name ++ " out of range")

/-- `VesselData.__post_init__` from `cetos/models.py`: range-checks
length, beam, design_speed, design_draft and propulsion_engine_power,
and range-checks `size` only when it is present.  Note: the source
performs no presence check on `size` for any vessel type. -/
def VesselData.validate (v : VesselData) : Except String Unit := do
  validateRange "length" v.length 5 450
  validateRange "beam" v.beam (3/2) 70
  validateRange "design_speed" v.design_speed 1 50
  validateRange "design_draft" v.design_draft (1/10) 25
  validateRange "propulsion_engine_power" v.propulsion_engine_power 5 60000
  match v.size with
  | some s => validateRange "size" s 0 500000
  | none => .ok ()

/-- The vessel types for which the `VesselData` docstring declares `size`
optional: yacht, service-tug, miscellaneous-fishing, offshore,
service-other, miscellaneous-other. -/
def sizeExempt (t : VesselType) : Bool :=
  match t with
  | .yacht | .service_tug | .misc_fishing | .offshore | .service_other | .misc_other => true
  | _ => false

/-- A voyage profile, from `cetos/models.py` (`VoyageProfile`); the two
leg lists default to empty lists, as in the source
(`field(default_factory=list)`). -/
structure VoyageProfile where
  time_anchored : ℚ
  time_at_berth : ℚ
  legs_manoeuvring : List VoyageLeg := []
  legs_at_sea : List VoyageLeg := []
deriving DecidableEq, Repr

/-- `VoyageProfile.__post_init__` from `cetos/models.py`: raises
`ValueError` unless `0 <= time_anchored <= 8760` and
`0 <= time_at_berth <= 8760` (`max_hours = 24 * 365`); the leg lists
are never inspected. -/
def VoyageProfile.validate (p : VoyageProfile) : Except String Unit :=
  if ¬(0 ≤ p.time_anchored ∧ p.time_anchored ≤ 8760) then
    .error "time_anchored must be 0-8760 hours"
  else if ¬(0 ≤ p.time_at_berth ∧ p.time_at_berth ≤ 8760) then
    .error "time_at_berth must be 0-8760 hours"
  else
    .ok ()

/-- Fuel consumption for one operational mode, from `cetos/models.py`
(`FuelConsumptionBreakdown`). -/
structure FuelConsumptionBreakdown where
  subtotal_kg : ℚ
  auxiliary_engines_kg : ℚ
  propulsion_engines_kg : ℚ := 0
  average_fuel_consumption_l_per_nm : ℚ := 0
  steam_boilers_kg : Option ℚ := none
deriving DecidableEq, Repr

/-- Full fuel consumption result, from `cetos/models.py`
(`FuelConsumptionResult`). -/
structure FuelConsumptionResult where
  total_kg : ℚ
  at_berth : FuelConsumptionBreakdown
  anchored : FuelConsumptionBreakdown
  manoeuvring : FuelConsumptionBreakdown
  at_sea : FuelConsumptionBreakdown
deriving DecidableEq, Repr

/-- Energy consumption for one operational mode, from `cetos/models.py`
(`EnergyConsumptionBreakdown`). -/
structure EnergyConsumptionBreakdown where
  subtotal_kwh : ℚ
  auxiliary_engines_kwh : ℚ
  propulsion_engines_kwh : ℚ
  steam_boilers_kwh : Option ℚ := none
deriving DecidableEq, Repr

/-- Full energy consumption result, from `cetos/models.py`
(`EnergyConsumptionResult`). -/
structure EnergyConsumptionResult where
  total_kwh : ℚ
  at_berth : EnergyConsumptionBreakdown
  anchored : EnergyConsumptionBreakdown
  manoeuvring : EnergyConsumptionBreakdown
  at_sea : EnergyConsumptionBreakdown
deriving DecidableEq, Repr

/-- Reference component constants, from `cetos/models.py`
(`ReferenceValues`), with the source's default values. -/
structure ReferenceValues where
  reference_fuel_cell_volume_m3 : ℚ := (730/1000) * (9/10) * (22/10)
  reference_fuel_cell_weight_kg : ℚ := 1070
  reference_fuel_cell_power_kw : ℚ := 185
  reference_fuel_cell_efficiency_pct : ℚ := 45
  reference_battery_pack_volume_m3 : ℚ := (2241/1000) * (865/1000) * (738/1000)
  reference_battery_pack_weight_kg : ℚ := 1628
  reference_battery_pack_capacity_kwh : ℚ := 124
  reference_battery_pack_depth_of_discharge_pct : ℚ := 80
  reference_hydrogen_gas_tank_volume_m3 : ℚ := 1033/1000
  reference_hydrogen_gas_tank_capacity_kg : ℚ := 184/10
  reference_hydrogen_gas_tank_weight_kg : ℚ := 272
deriving DecidableEq, Repr

/-- One sized energy-system component, from `cetos/models.py`
(`EnergySystemComponent`). -/
structure EnergySystemComponent where
  weight_kg : ℚ
  volume_m3 : ℚ
  power_kw : Option ℚ := none
  capacity_kwh : Option ℚ := none
  capacity_kg : Option ℚ := none
deriving DecidableEq, Repr

/-- Result of an energy-system sizing call.  `EnergySystemResult` in
`cetos/models.py` stores `details` as an untyped dict; per the spec
(section 4.5, "one `EnergySystemComponent` per system type requested,
... retain per-component detail"), the detail map is embedded as one
optional entry per system type. -/
structure EnergySystemDetails where
  fuel_cell_system : Option EnergySystemComponent := none
  battery_system : Option EnergySystemComponent := none
  hydrogen_gas_tank_system : Option EnergySystemComponent := none
deriving DecidableEq, Repr

/-- Full energy-system sizing result, from `cetos/models.py`
(`EnergySystemResult`): aggregate weight and volume plus the detail map. -/
structure EnergySystemResult where
  total_weight_kg : ℚ
  total_volume_m3 : ℚ
  details : EnergySystemDetails
deriving DecidableEq, Repr

/-- Modelled from the spec: the fixed fuel density (kg per litre) per fuel
type used by `calculate_fuel_mass` / `calculate_fuel_volume` in the missing
`cetos/imo.py` (spec section 4.2: "HFO, MDO, MeOH, LNG each has a fixed
density").  The spec fixes only that each fuel type has one fixed positive
constant; the numeric values below are representative, and no theorem
depends on them beyond their being nonzero. -/
def fuelDensity (fuel : FuelType) : ℚ :=
  match fuel with
  | .HFO => 98/100
  | .MDO => 89/100
  | .MeOH => 79/100
  | .LNG => 45/100

/-- Modelled from the spec: `calculate_fuel_volume(mass_kg, fuel_type)`
from the missing `cetos/imo.py` (spec section 4.2:
volume = mass_kg / density(fuel_type), in litres). -/
def calculate_fuel_volume (mass_kg : ℚ) (fuel : FuelType) : ℚ :=
  mass_kg / fuelDensity fuel

/-- Modelled from the spec: `calculate_fuel_mass(volume_l, fuel_type)`
from the missing `cetos/imo.py` (spec section 4.2: the exact inverse of
`calculate_fuel_volume`, using the same density constant). -/
def calculate_fuel_mass (volume_l : ℚ) (fuel : FuelType) : ℚ :=
  volume_l * fuelDensity fuel

/-- One of the four operational modes (spec glossary). -/
inductive Mode where
  | at_berth
  | anchored
  | manoeuvring
  | at_sea
deriving DecidableEq, Repr

/-- Modelled from the spec: the read-only reference data tables of
section 4.1, which the missing `cetos/imo.py` consults.  A `none` result
models the spec's `LookupError` ("missing combinations signal a lookup
failure").  The engine is parametric in the tables because the spec leaves
the authoritative coefficient values to the IMO study annexes
(section 9, open question). -/
structure RefTables where
  sfc : EngineType → EngineAge → FuelType → Option ℚ
  auxSfc : FuelType → Option ℚ
  auxiliaryPower : VesselType → Option ℚ → Mode → Option ℚ
  boilerFuelRate : VesselType → Option ℚ → Mode → Option ℚ
  boilerPower : VesselType → Option ℚ → Mode → Option ℚ

/-- Modelled from the spec: coefficients resolved from the reference
tables for one vessel, one value per mode (spec section 2 control flow:
"Reference Data Tables supply consumption coefficients").  Boiler entries
are options: `none` means "no boiler applicable" (spec section 9: absent
option, not numeric zero). -/
structure Coefficients where
  sfcProp : ℚ
  sfcAux : ℚ
  auxPowerAtBerth : ℚ
  auxPowerAnchored : ℚ
  auxPowerManoeuvring : ℚ
  auxPowerAtSea : ℚ
  boilerRateAtBerth : Option ℚ
  boilerRateAnchored : Option ℚ
  boilerRateManoeuvring : Option ℚ
  boilerRateAtSea : Option ℚ
  boilerPowerAtBerth : Option ℚ
  boilerPowerAnchored : Option ℚ
  boilerPowerManoeuvring : Option ℚ
  boilerPowerAtSea : Option ℚ
deriving DecidableEq, Repr

/-- Modelled from the spec: resolve all coefficients for a vessel from
the tables; any missing propulsion-SFC or auxiliary coefficient is a
lookup failure (spec section 4.3: "Any vessel type lacking a
propulsion/auxiliary coefficient signals a lookup failure rather than
silently defaulting"). -/
def resolveCoefficients (t : RefTables) (v : VesselData) : Option Coefficients := do
  let sfcProp ← t.sfc v.propulsion_engine_type v.propulsion_engine_age v.propulsion_engine_fuel_type
  let sfcAux ← t.auxSfc v.propulsion_engine_fuel_type
  let pB ← t.auxiliaryPower v.type v.size .at_berth
  let pA ← t.auxiliaryPower v.type v.size .anchored
  let pM ← t.auxiliaryPower v.type v.size .manoeuvring
  let pS ← t.auxiliaryPower v.type v.size .at_sea
  some
    { sfcProp := sfcProp
      sfcAux := sfcAux
      auxPowerAtBerth := pB
      auxPowerAnchored := pA
      auxPowerManoeuvring := pM
      auxPowerAtSea := pS
      boilerRateAtBerth := t.boilerFuelRate v.type v.size .at_berth
      boilerRateAnchored := t.boilerFuelRate v.type v.size .anchored
      boilerRateManoeuvring := t.boilerFuelRate v.type v.size .manoeuvring
      boilerRateAtSea := t.boilerFuelRate v.type v.size .at_sea
      boilerPowerAtBerth := t.boilerPower v.type v.size .at_berth
      boilerPowerAnchored := t.boilerPower v.type v.size .anchored
      boilerPowerManoeuvring := t.boilerPower v.type v.size .manoeuvring
      boilerPowerAtSea := t.boilerPower v.type v.size .at_sea }

/-- Modelled from the spec: propulsion power demand (kW) for one leg
(spec section 4.3): total installed power scaled by the cube of the
speed ratio and linearly by the draft ratio. -/
def propulsionPower (v : VesselData) (leg : VoyageLeg) : ℚ :=
  (v.number_of_propulsion_engines : ℚ) * v.propulsion_engine_power
    * (leg.speed / v.design_speed) ^ 3 * (leg.draft / v.design_draft)

/-- Modelled from the spec: transit time of a leg in hours
(spec section 4.4: "Transit time for a leg = distance / speed (hours)"). -/
def legHours (leg : VoyageLeg) : ℚ :=
  leg.distance / leg.speed

/-- Modelled from the spec: propulsion fuel mass (kg) for one leg
(spec section 4.4: fuel_mass = power_kw x (distance_nm / speed_kn) x
SFC_g_per_kwh / 1000). -/
def legPropulsionFuel (v : VesselData) (sfcProp : ℚ) (leg : VoyageLeg) : ℚ :=
  propulsionPower v leg * legHours leg * sfcProp / 1000

/-- Modelled from the spec: propulsion energy (kWh) for one leg — the
energy variant drops the SFC conversion (spec section 4.4). -/
def legPropulsionEnergy (v : VesselData) (leg : VoyageLeg) : ℚ :=
  propulsionPower v leg * legHours leg

/-- Modelled from the spec: fuel breakdown of a stationary mode (at-berth
or anchored): auxiliary power x duration x SFC_aux plus boiler
contribution where applicable; the propulsion component and the average
rate-per-distance are identically zero by definition (spec section 4.4). -/
def stationaryFuelBreakdown (c : Coefficients) (auxPowerKw duration : ℚ)
    (boilerRate : Option ℚ) : FuelConsumptionBreakdown :=
  let aux := auxPowerKw * duration * c.sfcAux / 1000
  let boiler := boilerRate.map (fun rate => rate * duration)
  { subtotal_kg := aux + boiler.getD 0
    auxiliary_engines_kg := aux
    propulsion_engines_kg := 0
    average_fuel_consumption_l_per_nm := 0
    steam_boilers_kg := boiler }

/-- Modelled from the spec: fuel breakdown of a sailing mode
(manoeuvring or at-sea): sum over the mode's legs of propulsion,
auxiliary and boiler fuel; the average rate is the mode's total fuel
volume divided by total distance, defined as zero when the distance is
zero (spec section 4.4). -/
def sailingFuelBreakdown (v : VesselData) (c : Coefficients) (auxPowerKw : ℚ)
    (boilerRate : Option ℚ) (legs : List VoyageLeg) : FuelConsumptionBreakdown :=
  let hours := (legs.map legHours).sum
  let prop := (legs.map (legPropulsionFuel v c.sfcProp)).sum
  let aux := auxPowerKw * hours * c.sfcAux / 1000
  let boiler := boilerRate.map (fun rate => rate * hours)
  let subtotal := aux + prop + boiler.getD 0
  let dist := (legs.map (fun leg => leg.distance)).sum
  { subtotal_kg := subtotal
    auxiliary_engines_kg := aux
    propulsion_engines_kg := prop
    average_fuel_consumption_l_per_nm :=
      if dist = 0 then 0
      else calculate_fuel_volume subtotal v.propulsion_engine_fuel_type / dist
    steam_boilers_kg := boiler }

/-- Modelled from the spec: the fuel consumption computation on resolved
coefficients (spec section 4.4).  The grand total aggregates per-system
totals across the four modes; section 4.4's invariant that this equals
the sum of the four mode subtotals is proved below. -/
def computeFuelConsumption (v : VesselData) (p : VoyageProfile)
    (c : Coefficients) : FuelConsumptionResult :=
  let atBerth := stationaryFuelBreakdown c c.auxPowerAtBerth p.time_at_berth c.boilerRateAtBerth
  let anchored := stationaryFuelBreakdown c c.auxPowerAnchored p.time_anchored c.boilerRateAnchored
  let manoeuvring := sailingFuelBreakdown v c c.auxPowerManoeuvring c.boilerRateManoeuvring p.legs_manoeuvring
  let atSea := sailingFuelBreakdown v c c.auxPowerAtSea c.boilerRateAtSea p.legs_at_sea
  let totalAux := atBerth.auxiliary_engines_kg + anchored.auxiliary_engines_kg
    + manoeuvring.auxiliary_engines_kg + atSea.auxiliary_engines_kg
  let totalProp := atBerth.propulsion_engines_kg + anchored.propulsion_engines_kg
    + manoeuvring.propulsion_engines_kg + atSea.propulsion_engines_kg
  let totalBoiler := (atBerth.steam_boilers_kg).getD 0 + (anchored.steam_boilers_kg).getD 0
    + (manoeuvring.steam_boilers_kg).getD 0 + (atSea.steam_boilers_kg).getD 0
  { total_kg := totalAux + totalProp + totalBoiler
    at_berth := atBerth
    anchored := anchored
    manoeuvring := manoeuvring
    at_sea := atSea }

/-- Modelled from the spec: `estimate_fuel_consumption(vessel, voyage)`
from the missing `cetos/imo.py` (spec section 6): resolve coefficients
(a missing coefficient is a `LookupError`, embedded as `none`), then run
the pure consumption computation. -/
def estimate_fuel_consumption (t : RefTables) (v : VesselData)
    (p : VoyageProfile) : Option FuelConsumptionResult :=
  (resolveCoefficients t v).map (computeFuelConsumption v p)

/-- Modelled from the spec: energy breakdown of a stationary mode — the
energy variant mirrors the fuel variant with kWh = power x time and no
SFC step (spec section 4.4). -/
def stationaryEnergyBreakdown (auxPowerKw duration : ℚ)
    (boilerPowerKw : Option ℚ) : EnergyConsumptionBreakdown :=
  let aux := auxPowerKw * duration
  let boiler := boilerPowerKw.map (fun pw => pw * duration)
  { subtotal_kwh := aux + boiler.getD 0
    auxiliary_engines_kwh := aux
    propulsion_engines_kwh := 0
    steam_boilers_kwh := boiler }

/-- Modelled from the spec: energy breakdown of a sailing mode
(spec section 4.4, energy variant). -/
def sailingEnergyBreakdown (v : VesselData) (auxPowerKw : ℚ)
    (boilerPowerKw : Option ℚ) (legs : List VoyageLeg) : EnergyConsumptionBreakdown :=
  let hours := (legs.map legHours).sum
  let prop := (legs.map (legPropulsionEnergy v)).sum
  let aux := auxPowerKw * hours
  let boiler := boilerPowerKw.map (fun pw => pw * hours)
  { subtotal_kwh := aux + prop + boiler.getD 0
    auxiliary_engines_kwh := aux
    propulsion_engines_kwh := prop
    steam_boilers_kwh := boiler }

/-- Modelled from the spec: the energy consumption computation on
resolved coefficients (spec section 4.4, energy variant); the total
aggregates per-system totals across modes. -/
def computeEnergyConsumption (v : VesselData) (p : VoyageProfile)
    (c : Coefficients) : EnergyConsumptionResult :=
  let atBerth := stationaryEnergyBreakdown c.auxPowerAtBerth p.time_at_berth c.boilerPowerAtBerth
  let anchored := stationaryEnergyBreakdown c.auxPowerAnchored p.time_anchored c.boilerPowerAnchored
  let manoeuvring := sailingEnergyBreakdown v c.auxPowerManoeuvring c.boilerPowerManoeuvring p.legs_manoeuvring
  let atSea := sailingEnergyBreakdown v c.auxPowerAtSea c.boilerPowerAtSea p.legs_at_sea
  let totalAux := atBerth.auxiliary_engines_kwh + anchored.auxiliary_engines_kwh
    + manoeuvring.auxiliary_engines_kwh + atSea.auxiliary_engines_kwh
  let totalProp := atBerth.propulsion_engines_kwh + anchored.propulsion_engines_kwh
    + manoeuvring.propulsion_engines_kwh + atSea.propulsion_engines_kwh
  let totalBoiler := (atBerth.steam_boilers_kwh).getD 0 + (anchored.steam_boilers_kwh).getD 0
    + (manoeuvring.steam_boilers_kwh).getD 0 + (atSea.steam_boilers_kwh).getD 0
  { total_kwh := totalAux + totalProp + totalBoiler
    at_berth := atBerth
    anchored := anchored
    manoeuvring := manoeuvring
    at_sea := atSea }

/-- Modelled from the spec: `estimate_energy_consumption(vessel, voyage)`
from the missing `cetos/imo.py` (spec section 6): same failure modes as
the fuel variant. -/
def estimate_energy_consumption (t : RefTables) (v : VesselData)
    (p : VoyageProfile) : Option EnergyConsumptionResult :=
  (resolveCoefficients t v).map (computeEnergyConsumption v p)

/-- Modelled from the spec: fuel-cell sizing (spec section 4.5):
units = power target / reference fuel-cell power, fractional;
weight and volume scale linearly by the same count. -/
def sizeFuelCellSystem (rv : ReferenceValues) (power_kw : ℚ) : EnergySystemComponent :=
  let units := power_kw / rv.reference_fuel_cell_power_kw
  { weight_kg := rv.reference_fuel_cell_weight_kg * units
    volume_m3 := rv.reference_fuel_cell_volume_m3 * units
    power_kw := some power_kw
    capacity_kwh := none
    capacity_kg := none }

/-- Modelled from the spec: battery sizing (spec section 4.5):
units = energy target / reference battery capacity, fractional. -/
def sizeBatterySystem (rv : ReferenceValues) (capacity_kwh : ℚ) : EnergySystemComponent :=
  let units := capacity_kwh / rv.reference_battery_pack_capacity_kwh
  { weight_kg := rv.reference_battery_pack_weight_kg * units
    volume_m3 := rv.reference_battery_pack_volume_m3 * units
    power_kw := none
    capacity_kwh := some capacity_kwh
    capacity_kg := none }

/-- Modelled from the spec: hydrogen-tank sizing (spec section 4.5):
units = mass target / reference tank capacity, fractional. -/
def sizeHydrogenTankSystem (rv : ReferenceValues) (capacity_kg : ℚ) : EnergySystemComponent :=
  let units := capacity_kg / rv.reference_hydrogen_gas_tank_capacity_kg
  { weight_kg := rv.reference_hydrogen_gas_tank_weight_kg * units
    volume_m3 := rv.reference_hydrogen_gas_tank_volume_m3 * units
    power_kw := none
    capacity_kwh := none
    capacity_kg := some capacity_kg }

/-- Modelled from the spec: `size_energy_system(requirements,
reference_values)` from the missing sizing module (spec sections 4.5
and 6): a negative required target is a `ValidationError`; each requested
component is sized independently; total weight and volume are the sums
across the included components. -/
def size_energy_system (powerTarget energyTarget massTarget : Option ℚ)
    (rv : ReferenceValues) : Except String EnergySystemResult :=
  if powerTarget.getD 0 < 0 ∨ energyTarget.getD 0 < 0 ∨ massTarget.getD 0 < 0 then
    .error "required target must be non-negative"
  else
    let fc := powerTarget.map (sizeFuelCellSystem rv)
    let bat := energyTarget.map (sizeBatterySystem rv)
    let tank := massTarget.map (sizeHydrogenTankSystem rv)
    .ok
      { total_weight_kg := (fc.map (fun comp => comp.weight_kg)).getD 0
          + (bat.map (fun comp => comp.weight_kg)).getD 0
          + (tank.map (fun comp => comp.weight_kg)).getD 0
        total_volume_m3 := (fc.map (fun comp => comp.volume_m3)).getD 0
          + (bat.map (fun comp => comp.volume_m3)).getD 0
          + (tank.map (fun comp => comp.volume_m3)).getD 0
        details :=
          { fuel_cell_system := fc
            battery_system := bat
            hydrogen_gas_tank_system := tank } }

/-- Concrete reference tables used to instantiate the engine in witnesses.
The spec leaves the authoritative coefficient values to the IMO study
annexes; these values are representative and every coefficient is present,
with boiler demand only for oil tankers (spec section 8, tanker scenario). -/
def sampleTables : RefTables :=
  { sfc := fun _ _ _ => some 185
    auxSfc := fun _ => some 217
    auxiliaryPower := fun _ _ mode =>
      match mode with
      | .at_berth => some 100
      | .anchored => some 100
      | .manoeuvring => some 300
      | .at_sea => some 200
    boilerFuelRate := fun vt _ _ => if vt = .oil_tanker then some 50 else none
    boilerPower := fun vt _ _ => if vt = .oil_tanker then some 60 else none }

/-- A concrete valid vessel (ferry-like, simple round numbers). -/
def sampleVessel : VesselData :=
  { length := 40
    beam := 10
    design_speed := 10
    design_draft := 4
    double_ended := false
    number_of_propulsion_engines := 2
    propulsion_engine_power := 1000
    propulsion_engine_type := .MSD
    propulsion_engine_age := .after_2000
    propulsion_engine_fuel_type := .MDO
    type := .ferry_pax
    size := some 686 }

/-- A concrete valid voyage profile. -/
def sampleVoyage : VoyageProfile :=
  { time_anchored := 10
    time_at_berth := 10
    legs_manoeuvring := [⟨10, 10, 4⟩]
    legs_at_sea := [⟨30, 10, 4⟩, ⟨30, 10, 4⟩] }

/-- Placeholder fuel result for `Option.getD` (never selected in witnesses). -/
def junkFuelResult : FuelConsumptionResult :=
  { total_kg := 0
    at_berth := { subtotal_kg := 0, auxiliary_engines_kg := 0 }
    anchored := { subtotal_kg := 0, auxiliary_engines_kg := 0 }
    manoeuvring := { subtotal_kg := 0, auxiliary_engines_kg := 0 }
    at_sea := { subtotal_kg := 0, auxiliary_engines_kg := 0 } }

/-- Placeholder energy result for `Option.getD` (never selected in witnesses). -/
def junkEnergyResult : EnergyConsumptionResult :=
  { total_kwh := 0
    at_berth := { subtotal_kwh := 0, auxiliary_engines_kwh := 0, propulsion_engines_kwh := 0 }
    anchored := { subtotal_kwh := 0, auxiliary_engines_kwh := 0, propulsion_engines_kwh := 0 }
    manoeuvring := { subtotal_kwh := 0, auxiliary_engines_kwh := 0, propulsion_engines_kwh := 0 }
    at_sea := { subtotal_kwh := 0, auxiliary_engines_kwh := 0, propulsion_engines_kwh := 0 } }

/-- The fuel result of the engine on the sample inputs. -/
def sampleFuelResult : FuelConsumptionResult :=
  (estimate_fuel_consumption sampleTables sampleVessel sampleVoyage).getD junkFuelResult

/-- The energy result of the engine on the sample inputs. -/
def sampleEnergyResult : EnergyConsumptionResult :=
  (estimate_energy_consumption sampleTables sampleVessel sampleVoyage).getD junkEnergyResult

/-- C3: `knots_to_ms(v)` returns `v * 1852 / 3600` for every speed `v`,
`ms_to_knots` is its exact inverse, and both round trips are the identity
(exact in the rational embedding, hence within floating-point tolerance). -/
theorem C3_speed_conversion_round_trip :
    (∀ v : ℚ, knots_to_ms v = v * 1852 / 3600)
    ∧ (∀ v : ℚ, ms_to_knots (knots_to_ms v) = v)
    ∧ (∀ v : ℚ, knots_to_ms (ms_to_knots v) = v) := by
  refine ⟨fun v => rfl, fun v => ?_, fun v => ?_⟩ <;>
    · unfold knots_to_ms ms_to_knots
      ring

/-- C4: for every supported fuel type and every mass `m`,
`calculate_fuel_mass (calculate_fuel_volume m fuel) fuel = m`, because both
directions use the same fixed density constant per fuel type. -/
theorem C4_fuel_mass_volume_round_trip :
    ∀ (m : ℚ) (fuel : FuelType),
      calculate_fuel_mass (calculate_fuel_volume m fuel) fuel = m := by
  intro m fuel
  have h : fuelDensity fuel ≠ 0 := by
    cases fuel <;> norm_num [fuelDensity]
  unfold calculate_fuel_mass calculate_fuel_volume
  exact div_mul_cancel₀ m h

/-- A concrete `VesselData` whose type (oil tanker) is outside the
docstring's size-exempt set yet carries `size = None`; all other fields
are within the documented ranges (taken from `tests/fixtures.py`,
`OIL_TANKER_VESSEL`, with the size removed). -/
def tankerWithoutSize : VesselData :=
  { length := 200
    beam := 30
    design_speed := 15
    design_draft := 12
    double_ended := false
    number_of_propulsion_engines := 1
    propulsion_engine_power := 8000
    propulsion_engine_type := .SSD
    propulsion_engine_age := .after_2000
    propulsion_engine_fuel_type := .HFO
    type := .oil_tanker
    size := none }

/-- C5: the claim says a vessel whose type is outside the exempt set with
`size = None` fails validation at construction; `VesselData.__post_init__`
performs no such presence check, so this oil tanker (not exempt, no size)
is accepted — the construction-time validation succeeds. -/
theorem C5_missing_size_accepted_at_construction :
    sizeExempt tankerWithoutSize.type = false
    ∧ tankerWithoutSize.size = none
    ∧ tankerWithoutSize.validate = .ok () := by
  refine ⟨rfl, rfl, ?_⟩
  unfold tankerWithoutSize VesselData.validate validateRange
  norm_num
  rfl

/-- C6: `VoyageLeg` construction fails exactly when `distance < 0` or
`speed <= 0` or `draft <= 0` (so a zero-distance leg is accepted), and a
zero-distance leg contributes zero propulsion fuel. -/
theorem C6_voyage_leg_validation_and_zero_distance
    (d s dr : ℚ) (v : VesselData) (sfcProp : ℚ) :
    ((VoyageLeg.mk d s dr).validate = .ok () ↔ ¬(d < 0 ∨ s ≤ 0 ∨ dr ≤ 0))
    ∧ legPropulsionFuel v sfcProp ⟨0, s, dr⟩ = 0 := by
  constructor
  · unfold VoyageLeg.validate
    split_ifs with h1 h2 h3 <;> simp_all
  · simp [legPropulsionFuel, legHours]

/-- C10: `VoyageProfile` construction fails exactly when `time_anchored`
or `time_at_berth` lies outside `[0, 8760]` hours; the leg lists are
never inspected (the validation result is the same for every choice of
legs) and default to empty lists when omitted. -/
theorem C10_voyage_profile_validation (p : VoyageProfile) (ta tb : ℚ) :
    (p.validate = .ok () ↔
      (0 ≤ p.time_anchored ∧ p.time_anchored ≤ 8760
        ∧ 0 ≤ p.time_at_berth ∧ p.time_at_berth ≤ 8760))
    ∧ ({ time_anchored := ta, time_at_berth := tb } : VoyageProfile).legs_manoeuvring = []
    ∧ ({ time_anchored := ta, time_at_berth := tb } : VoyageProfile).legs_at_sea = [] := by
  refine ⟨?_, rfl, rfl⟩
  unfold VoyageProfile.validate
  split_ifs with h1 h2 <;> simp_all

/-- C1: for every (tables, vessel, voyage) on which the estimators
succeed, the fuel total equals the sum of the four mode subtotals
exactly, and likewise for the kWh totals of the energy variant. -/
theorem C1_total_equals_sum_of_mode_subtotals
    (t : RefTables) (v : VesselData) (p : VoyageProfile)
    (rf : FuelConsumptionResult) (re : EnergyConsumptionResult)
    (hf : estimate_fuel_consumption t v p = some rf)
    (he : estimate_energy_consumption t v p = some re) :
    rf.total_kg = rf.at_berth.subtotal_kg + rf.anchored.subtotal_kg
      + rf.manoeuvring.subtotal_kg + rf.at_sea.subtotal_kg
    ∧ re.total_kwh = re.at_berth.subtotal_kwh + re.anchored.subtotal_kwh
      + re.manoeuvring.subtotal_kwh + re.at_sea.subtotal_kwh := by
  obtain ⟨c, hc, hrf⟩ := Option.map_eq_some'.mp hf
  obtain ⟨c2, hc2, hre⟩ := Option.map_eq_some'.mp he
  rw [hc, Option.some.injEq] at hc2
  subst hc2
  subst hrf
  subst hre
  constructor
  · simp only [computeFuelConsumption, stationaryFuelBreakdown, sailingFuelBreakdown]
    ring
  · simp only [computeEnergyConsumption, stationaryEnergyBreakdown, sailingEnergyBreakdown]
    ring

/-- Witness for C1: the invariant holds on the concrete sample inputs. -/
theorem C1_total_equals_sum_witness :
    sampleFuelResult.total_kg = sampleFuelResult.at_berth.subtotal_kg
      + sampleFuelResult.anchored.subtotal_kg
      + sampleFuelResult.manoeuvring.subtotal_kg
      + sampleFuelResult.at_sea.subtotal_kg
    ∧ sampleEnergyResult.total_kwh = sampleEnergyResult.at_berth.subtotal_kwh
      + sampleEnergyResult.anchored.subtotal_kwh
      + sampleEnergyResult.manoeuvring.subtotal_kwh
      + sampleEnergyResult.at_sea.subtotal_kwh :=
  C1_total_equals_sum_of_mode_subtotals sampleTables sampleVessel sampleVoyage
    sampleFuelResult sampleEnergyResult (by rfl) (by rfl)

/-- C2: for every (tables, vessel, voyage) on which the fuel estimator
succeeds, the at-berth and anchored breakdowns have zero propulsion fuel
and zero average rate-per-distance (set identically to zero by the
stationary-mode construction, not computed as 0/0). -/
theorem C2_stationary_modes_zero_propulsion
    (t : RefTables) (v : VesselData) (p : VoyageProfile)
    (rf : FuelConsumptionResult)
    (hf : estimate_fuel_consumption t v p = some rf) :
    rf.at_berth.propulsion_engines_kg = 0
    ∧ rf.anchored.propulsion_engines_kg = 0
    ∧ rf.at_berth.average_fuel_consumption_l_per_nm = 0
    ∧ rf.anchored.average_fuel_consumption_l_per_nm = 0 := by
  obtain ⟨c, hc, hrf⟩ := Option.map_eq_some'.mp hf
  subst hrf
  simp [computeFuelConsumption, stationaryFuelBreakdown]

/-- Witness for C2: the stationary-mode zeros on the concrete sample inputs. -/
theorem C2_stationary_modes_witness :
    sampleFuelResult.at_berth.propulsion_engines_kg = 0
    ∧ sampleFuelResult.anchored.propulsion_engines_kg = 0
    ∧ sampleFuelResult.at_berth.average_fuel_consumption_l_per_nm = 0
    ∧ sampleFuelResult.anchored.average_fuel_consumption_l_per_nm = 0 :=
  C2_stationary_modes_zero_propulsion sampleTables sampleVessel sampleVoyage
    sampleFuelResult (by rfl)

/-- C9: both estimators are deterministic pure functions of their inputs:
equal vessel and voyage inputs give equal results.  (Absence of input and
shared-state mutation is inherent to the functional embedding: the engine
is a function of immutable values.) -/
theorem C9_estimators_deterministic
    (t : RefTables) (v1 v2 : VesselData) (p1 p2 : VoyageProfile)
    (hv : v1 = v2) (hp : p1 = p2) :
    estimate_fuel_consumption t v1 p1 = estimate_fuel_consumption t v2 p2
    ∧ estimate_energy_consumption t v1 p1 = estimate_energy_consumption t v2 p2 := by
  subst hv
  subst hp
  exact ⟨rfl, rfl⟩

/-- Witness for C9 at the concrete sample inputs. -/
theorem C9_estimators_deterministic_witness :
    estimate_fuel_consumption sampleTables sampleVessel sampleVoyage
      = estimate_fuel_consumption sampleTables sampleVessel sampleVoyage
    ∧ estimate_energy_consumption sampleTables sampleVessel sampleVoyage
      = estimate_energy_consumption sampleTables sampleVessel sampleVoyage :=
  C9_estimators_deterministic sampleTables sampleVessel sampleVessel
    sampleVoyage sampleVoyage rfl rfl

/-- A valid zero-distance at-sea leg at the slower speed. -/
def zeroDistanceLegSlow : VoyageLeg := ⟨0, 10, 4⟩

/-- The same zero-distance leg with its speed doubled. -/
def zeroDistanceLegFast : VoyageLeg := ⟨0, 20, 4⟩

/-- C7 counterexample: on a valid zero-distance at-sea leg (zero-distance
legs are explicitly accepted), raising the speed from 10 kn to 20 kn with
distance and draft fixed does NOT strictly increase the leg's propulsion
fuel contribution — both contributions are zero. -/
theorem C7_counterexample_zero_distance_leg :
    zeroDistanceLegSlow.validate = .ok ()
    ∧ zeroDistanceLegFast.validate = .ok ()
    ∧ zeroDistanceLegFast.distance = zeroDistanceLegSlow.distance
    ∧ zeroDistanceLegFast.draft = zeroDistanceLegSlow.draft
    ∧ zeroDistanceLegSlow.speed < zeroDistanceLegFast.speed
    ∧ ¬(legPropulsionFuel sampleVessel 185 zeroDistanceLegSlow
        < legPropulsionFuel sampleVessel 185 zeroDistanceLegFast) := by
  refine ⟨by rfl, by rfl, rfl, rfl, by norm_num [zeroDistanceLegSlow, zeroDistanceLegFast], ?_⟩
  simp [legPropulsionFuel, legHours, zeroDistanceLegSlow, zeroDistanceLegFast]

/-- C7 (amended): for every vessel with positive design speed, design
draft, engine power and at least one engine, every positive propulsion
SFC, and every at-sea leg with POSITIVE distance and positive draft,
strictly increasing the leg's speed (distance and draft fixed) strictly
increases that leg's propulsion fuel contribution. -/
theorem C7_speed_monotone_on_positive_distance
    (v : VesselData) (sfcProp d dr s1 s2 : ℚ)
    (hn : 1 ≤ v.number_of_propulsion_engines)
    (hP : 0 < v.propulsion_engine_power)
    (hvd : 0 < v.design_speed)
    (hdd : 0 < v.design_draft)
    (hsfc : 0 < sfcProp)
    (hd : 0 < d) (hdr : 0 < dr)
    (hs1 : 0 < s1) (hs12 : s1 < s2) :
    legPropulsionFuel v sfcProp ⟨d, s1, dr⟩
      < legPropulsionFuel v sfcProp ⟨d, s2, dr⟩ := by
  have hnq : (0 : ℚ) < (v.number_of_propulsion_engines : ℚ) := by
    exact_mod_cast Nat.lt_of_lt_of_le Nat.zero_lt_one hn
  have key : ∀ s : ℚ, s ≠ 0 →
      legPropulsionFuel v sfcProp ⟨d, s, dr⟩ =
        ((v.number_of_propulsion_engines : ℚ) * v.propulsion_engine_power * dr * d * sfcProp
          / (v.design_speed ^ 3 * v.design_draft * 1000)) * s ^ 2 := by
    intro s hs
    unfold legPropulsionFuel propulsionPower legHours
    field_simp
    ring
  have hC : 0 < (v.number_of_propulsion_engines : ℚ) * v.propulsion_engine_power * dr * d * sfcProp
      / (v.design_speed ^ 3 * v.design_draft * 1000) := by
    apply div_pos
    · exact mul_pos (mul_pos (mul_pos (mul_pos hnq hP) hdr) hd) hsfc
    · exact mul_pos (mul_pos (pow_pos hvd 3) hdd) (by norm_num)
  rw [key s1 (ne_of_gt hs1), key s2 (ne_of_gt (lt_trans hs1 hs12))]
  have hsq : s1 ^ 2 < s2 ^ 2 := by nlinarith
  exact mul_lt_mul_of_pos_left hsq hC

/-- Witness for the amended C7: on the sample vessel, SFC 185 g/kWh and a
30 nm leg of draft 4 m, raising the speed from 10 kn to 12 kn strictly
increases the propulsion fuel contribution. -/
theorem C7_speed_monotone_witness :
    legPropulsionFuel sampleVessel 185 ⟨30, 10, 4⟩
      < legPropulsionFuel sampleVessel 185 ⟨30, 12, 4⟩ :=
  C7_speed_monotone_on_positive_distance sampleVessel 185 30 4 10 12
    (by norm_num [sampleVessel]) (by norm_num [sampleVessel])
    (by norm_num [sampleVessel]) (by norm_num [sampleVessel])
    (by norm_num) (by norm_num) (by norm_num) (by norm_num) (by norm_num)

/-- C8: on every sizing call with all three targets requested and
non-negative, the result lists, for each component, weight and volume
equal to the reference weight and volume scaled by the fractional unit
count target / reference-unit-capacity.  Each component's value is a
formula in its own target and the reference values only, so sizing one
component never affects another's sizing. -/
theorem C8_energy_system_sizing
    (rv : ReferenceValues) (pw en ms : ℚ)
    (hp : 0 ≤ pw) (he : 0 ≤ en) (hm : 0 ≤ ms)
    (r : EnergySystemResult)
    (h : size_energy_system (some pw) (some en) (some ms) rv = .ok r) :
    r.details.fuel_cell_system = some
      { weight_kg := rv.reference_fuel_cell_weight_kg * (pw / rv.reference_fuel_cell_power_kw)
        volume_m3 := rv.reference_fuel_cell_volume_m3 * (pw / rv.reference_fuel_cell_power_kw)
        power_kw := some pw
        capacity_kwh := none
        capacity_kg := none }
    ∧ r.details.battery_system = some
      { weight_kg := rv.reference_battery_pack_weight_kg * (en / rv.reference_battery_pack_capacity_kwh)
        volume_m3 := rv.reference_battery_pack_volume_m3 * (en / rv.reference_battery_pack_capacity_kwh)
        power_kw := none
        capacity_kwh := some en
        capacity_kg := none }
    ∧ r.details.hydrogen_gas_tank_system = some
      { weight_kg := rv.reference_hydrogen_gas_tank_weight_kg * (ms / rv.reference_hydrogen_gas_tank_capacity_kg)
        volume_m3 := rv.reference_hydrogen_gas_tank_volume_m3 * (ms / rv.reference_hydrogen_gas_tank_capacity_kg)
        power_kw := none
        capacity_kwh := none
        capacity_kg := some ms } := by
  have hcond : ¬((some pw).getD 0 < 0 ∨ (some en).getD 0 < 0 ∨ (some ms).getD 0 < 0) := by
    push_neg
    exact ⟨by simpa using hp, by simpa using he, by simpa using hm⟩
  rw [size_energy_system, if_neg hcond] at h
  obtain rfl := (Except.ok.injEq _ _).mp h.symm
  exact ⟨rfl, rfl, rfl⟩

/-- The sizing result for the default reference values at power target
370 kW (2 fuel cells), energy target 248 kWh (2 battery packs) and
hydrogen target 36.8 kg (2 tanks), written out explicitly. -/
def sampleSizingResult : EnergySystemResult :=
  { total_weight_kg := 2140 + 3256 + 544
    total_volume_m3 := (730/1000) * (9/10) * (22/10) * 2
      + (2241/1000) * (865/1000) * (738/1000) * 2 + (1033/1000) * 2
    details :=
      { fuel_cell_system := some
          { weight_kg := 2140
            volume_m3 := (730/1000) * (9/10) * (22/10) * 2
            power_kw := some 370
            capacity_kwh := none
            capacity_kg := none }
        battery_system := some
          { weight_kg := 3256
            volume_m3 := (2241/1000) * (865/1000) * (738/1000) * 2
            power_kw := none
            capacity_kwh := some 248
            capacity_kg := none }
        hydrogen_gas_tank_system := some
          { weight_kg := 544
            volume_m3 := (1033/1000) * 2
            power_kw := none
            capacity_kwh := none
            capacity_kg := some (184/5) } } }

/-- Witness for C8: sizing with the default reference values at power
target 370 kW, energy target 248 kWh and hydrogen target 36.8 kg yields
exactly two of each reference unit, with weight and volume doubled. -/
theorem C8_energy_system_sizing_witness :
    sampleSizingResult.details.fuel_cell_system = some
      { weight_kg := ({} : ReferenceValues).reference_fuel_cell_weight_kg
          * (370 / ({} : ReferenceValues).reference_fuel_cell_power_kw)
        volume_m3 := ({} : ReferenceValues).reference_fuel_cell_volume_m3
          * (370 / ({} : ReferenceValues).reference_fuel_cell_power_kw)
        power_kw := some 370
        capacity_kwh := none
        capacity_kg := none }
    ∧ sampleSizingResult.details.battery_system = some
      { weight_kg := ({} : ReferenceValues).reference_battery_pack_weight_kg
          * (248 / ({} : ReferenceValues).reference_battery_pack_capacity_kwh)
        volume_m3 := ({} : ReferenceValues).reference_battery_pack_volume_m3
          * (248 / ({} : ReferenceValues).reference_battery_pack_capacity_kwh)
        power_kw := none
        capacity_kwh := some 248
        capacity_kg := none }
    ∧ sampleSizingResult.details.hydrogen_gas_tank_system = some
      { weight_kg := ({} : ReferenceValues).reference_hydrogen_gas_tank_weight_kg
          * (184/5 / ({} : ReferenceValues).reference_hydrogen_gas_tank_capacity_kg)
        volume_m3 := ({} : ReferenceValues).reference_hydrogen_gas_tank_volume_m3
          * (184/5 / ({} : ReferenceValues).reference_hydrogen_gas_tank_capacity_kg)
        power_kw := none
        capacity_kwh := none
        capacity_kg := some (184/5) } :=
  C8_energy_system_sizing {} 370 248 (184/5)
    (by norm_num) (by norm_num) (by norm_num) sampleSizingResult
    (by
      rw [size_energy_system, if_neg (by norm_num)]
      simp only [Option.map_some]
      unfold sizeFuelCellSystem sizeBatterySystem sizeHydrogenTankSystem sampleSizingResult
      norm_num)

end Cetos
